import Mathlib

/-!
# StockTrader — shallow embedding of the signal-to-position pipeline

This file embeds, in Lean 4, the core of the StockTrader repository:

* `app/storage/db.py`   — the Event Store (sqlite tables, transaction control),
* `app/risk/engine.py`  — the Risk Gate (`can_trade`, kill switch),
* `app/signal/integrity.py` — the Signal Integrity Check,
* `app/signal/scorer.py`    — the scoring formula,
* `app/nlp/ticker_mapper.py`, `app/ingestion/news_feed.py` — mapping and the
  sample feed,
* `app/main.py`         — the three-phase pipeline (`ingest_and_create_signal`,
  `execute_signal`).

Modelling conventions:

* Python floats are modelled as `ℚ`; the properties proved here are about the
  algebraic relations the code computes, not about IEEE rounding.
* sqlite rows are Lean structures; each table is a `List` of rows, append-only
  exactly where the source is append-only.  `AUTOINCREMENT` ids are modelled as
  `length + 1` (the tables are never deleted from).  Audit timestamp columns
  (`ingested_at`, `created_at`, `sent_at`, `filled_at`, `opened_at`,
  `closed_at`, `event_time`, `updated_at`) carry wall-clock time and are not
  modelled; no embedded operation reads them.
* A `sqlite3` connection holds a `committed` database plus the `current`
  uncommitted view seen by the connection itself.  `begin` starts from the
  committed state, `commit` publishes the current view, `rollback` discards it.
  All pipeline calls pass `autocommit=False`, so the embedded storage
  operations are the non-committing variants acting on the current view.
* Exceptions are `Except PipeError`; the `try/except: rollback; raise` blocks
  of `main.py` become explicit matches that return the rolled-back state
  together with `.error`.
-/

/-- Result of `json.loads` on a parameter value.  `value_json` cells are stored
as the parse outcome (`none` models a string that fails to parse). -/
inductive Json where
  | null : Json
  | bool : Bool → Json
  | num : ℚ → Json
  | str : String → Json
  | arr : List Json → Json
  | obj : List (String × Json) → Json

/-- Python truthiness (`if not raw`) of a decoded JSON value: `None`, `False`,
`0`, `""`, `[]` and `{}` are falsy. -/
def pyTruthy : Json → Bool
  | .null => false
  | .bool b => b
  | .num q => q ≠ 0
  | .str s => s ≠ ""
  | .arr xs => !xs.isEmpty
  | .obj kvs => !kvs.isEmpty

/-- First-match lookup in a decoded JSON object (Python dict keys are unique,
so first match is the dict lookup). -/
def jlookup : List (String × Json) → String → Option Json
  | [], _ => none
  | (k, v) :: kvs, key => if k = key then some v else jlookup kvs key

/-- Python `raw[k]`: dict indexing.  A missing key (`KeyError`) or a non-dict
receiver (`TypeError`) both raise, modelled as `none`. -/
def pyGetItem (j : Json) (key : String) : Option Json :=
  match j with
  | .obj kvs => jlookup kvs key
  | _ => none

/-- Digits of a decimal literal, `none` if a non-digit appears. -/
def digitsVal : List Char → Option Nat
  | [] => some 0
  | c :: cs =>
    if c.isDigit then
      match digitsVal cs with
      | some n => some (n + (c.toNat - '0'.toNat) * 10 ^ cs.length)
      | none => none
    else none

/-- Models Python `float(str)` for plain decimal literals: optional sign,
digits, optional single fractional point, at least one digit overall.
Exponent, `inf`/`nan` and whitespace forms are outside this model. -/
def parseFloatQ (s : String) : Option ℚ :=
  let cs := s.toList
  let (sign, body) : ℚ × List Char :=
    match cs with
    | '-' :: rest => (-1, rest)
    | '+' :: rest => (1, rest)
    | _ => (1, cs)
  let intPart := body.takeWhile (· ≠ '.')
  let rest := body.dropWhile (· ≠ '.')
  let fracPart := rest.drop 1
  if rest ≠ [] ∧ rest.head? ≠ some '.' then none
  else if fracPart.any (· = '.') then none
  else if intPart = [] ∧ fracPart = [] then none
  else
    match digitsVal intPart, digitsVal fracPart with
    | some i, some f => some (sign * ((i : ℚ) + (f : ℚ) / (10 : ℚ) ^ fracPart.length))
    | _, _ => none

/-- Python `float(x)` on a decoded JSON value: numbers and booleans convert,
numeric strings convert, everything else raises (`none`). -/
def pyFloat : Json → Option ℚ
  | .num q => some q
  | .bool b => some (if b then 1 else 0)
  | .str s => parseFloatQ s
  | _ => none

/-! ## Row types (tables of `app/storage/db.py::DB.init`) -/

/-- `news_events` row.  Schema: unique `url`, unique `raw_hash`,
`tier ∈ {1,2,3}` CHECK. -/
structure NewsRow where
  id : Nat
  source : String
  tier : Nat
  published_at : String
  title : String
  body : String
  url : String
  raw_hash : String
deriving Repr, DecidableEq

/-- `event_tickers` row (`context_snippet` is never written by the pipeline and
is omitted). -/
structure EventTickerRow where
  id : Nat
  news_id : Nat
  ticker : String
  company_name : String
  map_confidence : ℚ
  mapping_method : String
deriving Repr, DecidableEq

/-- `signal_scores` row.  `components` holds the decoded JSON the pipeline
serialises. -/
structure SignalRow where
  id : Nat
  news_id : Nat
  event_ticker_id : Nat
  ticker : String
  raw_score : ℚ
  total_score : ℚ
  components : Json
  priced_in_flag : String
  decision : String

/-- `positions` row.  `status ∈ {PENDING_ENTRY, OPEN, PARTIAL_EXIT, CLOSED,
CANCELLED}` as strings, matching the schema CHECK. -/
structure PositionRow where
  position_id : Nat
  ticker : String
  signal_id : Nat
  status : String
  qty : ℚ
  avg_entry_price : Option ℚ
  opened_value : Option ℚ
  leverage : ℚ
  exit_reason_code : Option String
deriving Repr, DecidableEq

/-- `orders` row (`broker_order_id` is never written and `attempt_no` is always
the default 1; both omitted). -/
structure OrderRow where
  id : Nat
  position_id : Nat
  signal_id : Nat
  ticker : String
  side : String
  qty : ℚ
  order_type : String
  price : Option ℚ
  status : String
deriving Repr, DecidableEq

/-- `position_events` row.  `idempotency_key` is nullable and unique when
present. -/
structure PositionEventRow where
  id : Nat
  position_id : Nat
  event_type : String
  action : String
  reason_code : String
  detail : Json
  idempotency_key : Option String

/-- `risk_state` row, keyed by `trade_date`. -/
structure RiskStateRow where
  trade_date : String
  daily_realized_pnl : ℚ
  daily_unrealized_pnl : ℚ
  daily_loss_limit_hit : Int
  consecutive_losses : Int
  cooldown_until : Option String
  trading_enabled : Int
deriving Repr, DecidableEq

/-- `parameter_registry` row; `value_json` is the `json.loads` outcome of the
stored string (see `Json`).  Columns the pipeline never reads (`scope`,
`tune_required`, `target_phase`, `rationale`, `evidence_link`) are omitted. -/
structure ParamRow where
  name : String
  value_json : Option Json

/-- The whole database: one list per table. -/
structure Store where
  news_events : List NewsRow
  event_tickers : List EventTickerRow
  signal_scores : List SignalRow
  positions : List PositionRow
  orders : List OrderRow
  position_events : List PositionEventRow
  risk_state : List RiskStateRow
  parameter_registry : List ParamRow

/-- Connection state: last `committed` database plus the `current` in-transaction
view of the same connection. -/
structure DBState where
  committed : Store
  current : Store

/-- Embedded exception type for the pipeline: `IntegrityError` subclasses from
`signal/integrity.py` (carrying the message), `IllegalTransitionError` from
`storage/db.py`, and `injected` standing for an environment exception
(I/O, venue, transport) thrown inside a transactional block — the §7
propagation policy quantifies over those. -/
inductive PipeError where
  | integrity (code : String)
  | illegalTransition
  | injected
deriving Repr, DecidableEq

/-! ## Event Store operations (`app/storage/db.py`)

All pipeline call sites pass `autocommit=False`; each operation below is that
non-committing variant, acting on the `current` store. -/

/-- Scan of `risk_state` by primary key `trade_date`. -/
def findRisk : List RiskStateRow → String → Option RiskStateRow
  | [], _ => none
  | r :: rs, d => if r.trade_date = d then some r else findRisk rs d

/-- Row inserted by `insert or ignore into risk_state(trade_date) values(?)`:
all other columns take their schema defaults (`trading_enabled = 1`). -/
def defaultRiskRow (trade_date : String) : RiskStateRow :=
  ⟨trade_date, 0, 0, 0, 0, none, 1⟩

/-- `DB.ensure_risk_state_today`: `insert or ignore` on the primary key. -/
def ensure_risk_state_today (trade_date : String) (s : Store) : Store :=
  if (findRisk s.risk_state trade_date).isSome then s
  else { s with risk_state := s.risk_state ++ [defaultRiskRow trade_date] }

/-- `DB.get_risk_state`: `select * from risk_state where trade_date=?`. -/
def get_risk_state (trade_date : String) (s : Store) : Option RiskStateRow :=
  findRisk s.risk_state trade_date

/-- Scan of `parameter_registry` by unique `name`. -/
def findParam : List ParamRow → String → Option ParamRow
  | [], _ => none
  | r :: rs, n => if r.name = n then some r else findParam rs n

/-- `DB.get_parameter`: select `value_json` by name, `json.loads` it, and map
any parse failure to `None`. -/
def get_parameter (s : Store) (name : String) : Option Json :=
  match findParam s.parameter_registry name with
  | none => none
  | some row => row.value_json

/-- The five weight keys read by `DB.get_score_weights`. -/
def weightKeys : List String :=
  ["impact", "source_reliability", "novelty", "market_reaction", "liquidity"]

/-- The dict comprehension `{k: float(raw[k]) for k in keys}` with its
surrounding `try/except` — any `KeyError`/`TypeError`/`ValueError` yields
`none`. -/
def buildWeights (raw : Json) : List String → Option (List (String × ℚ))
  | [] => some []
  | k :: ks =>
    match (pyGetItem raw k).bind pyFloat with
    | none => none
    | some q =>
      match buildWeights raw ks with
      | none => none
      | some rest => some ((k, q) :: rest)

/-- `DB.get_score_weights`: `None` unless the `score_weights` parameter exists,
parses, is truthy, and yields all five float weights. -/
def get_score_weights (s : Store) : Option (List (String × ℚ)) :=
  match get_parameter s "score_weights" with
  | none => none
  | some raw =>
    if pyTruthy raw then buildWeights raw weightKeys else none

/-- Fields of the dict passed to `DB.insert_news_if_new` by `main.py`. -/
structure NewsInsert where
  source : String
  tier : Nat
  published_at : String
  title : String
  body : String
  url : String
  raw_hash : String
deriving Repr, DecidableEq

/-- The condition under which sqlite raises `IntegrityError` on the
`news_events` insert: unique `url`, unique `raw_hash`, or the
`tier in (1,2,3)` CHECK.  (The NOT NULL constraints cannot be violated in
this embedding, where every field is a total value.) -/
def newsIntegrityViolation (item : NewsInsert) (s : Store) : Bool :=
  s.news_events.any (fun n => n.url = item.url) ||
  s.news_events.any (fun n => n.raw_hash = item.raw_hash) ||
  !(item.tier = 1 || item.tier = 2 || item.tier = 3)

/-- `DB.insert_news_if_new`: insert, catching `sqlite3.IntegrityError` as
`None`; on success return `lastrowid`. -/
def insert_news_if_new (item : NewsInsert) (s : Store) : Option Nat × Store :=
  if newsIntegrityViolation item s then (none, s)
  else
    let id := s.news_events.length + 1
    (some id,
      { s with news_events := s.news_events ++
          [⟨id, item.source, item.tier, item.published_at, item.title,
            item.body, item.url, item.raw_hash⟩] })

/-- `DB.insert_event_ticker`. -/
def insert_event_ticker (news_id : Nat) (ticker company_name : String)
    (confidence : ℚ) (method : String) (s : Store) : Nat × Store :=
  let id := s.event_tickers.length + 1
  (id, { s with event_tickers := s.event_tickers ++
      [⟨id, news_id, ticker, company_name, confidence, method⟩] })

/-- Scan of `event_tickers` by `id`. -/
def findEventTicker : List EventTickerRow → Nat → Option EventTickerRow
  | [], _ => none
  | r :: rs, i => if r.id = i then some r else findEventTicker rs i

/-- `DB.get_event_ticker`: `select * from event_tickers where id=?`. -/
def get_event_ticker (event_ticker_id : Nat) (s : Store) : Option EventTickerRow :=
  findEventTicker s.event_tickers event_ticker_id

/-- Payload of `DB.insert_signal`. -/
structure SignalInsert where
  news_id : Nat
  event_ticker_id : Nat
  ticker : String
  raw_score : ℚ
  total_score : ℚ
  components : Json
  priced_in_flag : String
  decision : String

/-- `DB.insert_signal`. -/
def insert_signal (payload : SignalInsert) (s : Store) : Nat × Store :=
  let id := s.signal_scores.length + 1
  (id, { s with signal_scores := s.signal_scores ++
      [⟨id, payload.news_id, payload.event_ticker_id, payload.ticker,
        payload.raw_score, payload.total_score, payload.components,
        payload.priced_in_flag, payload.decision⟩] })

/-- `DB.create_position`: insert with status `'PENDING_ENTRY'` and schema
defaults (`leverage = 1.0`, prices NULL). -/
def create_position (ticker : String) (signal_id : Nat) (qty : ℚ) (s : Store) :
    Nat × Store :=
  let id := s.positions.length + 1
  (id, { s with positions := s.positions ++
      [⟨id, ticker, signal_id, "PENDING_ENTRY", qty, none, none, 1, none⟩] })

/-- `DB.set_position_open`: `update positions set status='OPEN', ... where
position_id=? and status='PENDING_ENTRY'`; zero affected rows raises
`IllegalTransitionError` (and, the update having matched nothing, the table is
unchanged). -/
def set_position_open (position_id : Nat) (avg_entry_price opened_value : ℚ)
    (s : Store) : Except PipeError Store :=
  let hit := fun p : PositionRow =>
    p.position_id = position_id ∧ p.status = "PENDING_ENTRY"
  if s.positions.any (fun p => hit p) then
    .ok { s with positions := s.positions.map (fun p =>
      if hit p then
        { p with
          status := "OPEN"
          avg_entry_price := some avg_entry_price
          opened_value := some opened_value }
      else p) }
  else .error .illegalTransition

/-- `DB.set_position_closed`: `update positions set status='CLOSED', ... where
position_id=? and status='OPEN'`; zero affected rows raises
`IllegalTransitionError`. -/
def set_position_closed (position_id : Nat) (reason_code : String) (s : Store) :
    Except PipeError Store :=
  let hit := fun p : PositionRow => p.position_id = position_id ∧ p.status = "OPEN"
  if s.positions.any (fun p => hit p) then
    .ok { s with positions := s.positions.map (fun p =>
      if hit p then
        { p with status := "CLOSED", exit_reason_code := some reason_code }
      else p) }
  else .error .illegalTransition

/-- `DB.insert_order`. -/
def insert_order (position_id signal_id : Nat) (ticker side : String) (qty : ℚ)
    (order_type status : String) (price : Option ℚ) (s : Store) : Nat × Store :=
  let id := s.orders.length + 1
  (id, { s with orders := s.orders ++
      [⟨id, position_id, signal_id, ticker, side, qty, order_type, price, status⟩] })

/-- `DB.update_order_filled`: `update orders set status='FILLED', price=?,
filled_at=current_timestamp where id=?`. -/
def update_order_filled (order_id : Nat) (price : ℚ) (s : Store) : Store :=
  { s with orders := s.orders.map (fun o =>
      if o.id = order_id then { o with status := "FILLED", price := some price }
      else o) }

/-- The condition under which sqlite raises `IntegrityError` on the
`position_events` insert: the unique constraint on a non-null
`idempotency_key` (NULL keys are exempt, as in sqlite), or the schema's CHECK
constraints `event_type in ('ENTRY','ADD','PARTIAL_EXIT','FULL_EXIT','BLOCK')`
and `action in ('EXECUTED','SKIPPED','BLOCKED')`.  (The NOT NULL constraints
cannot be violated in this embedding, where every field is a total value.) -/
def positionEventIntegrityViolation (event_type action : String)
    (idempotency_key : Option String) (s : Store) : Bool :=
  (match idempotency_key with
   | some k => s.position_events.any (fun e => e.idempotency_key = some k)
   | none => false)
  || !(event_type = "ENTRY" || event_type = "ADD" ||
       event_type = "PARTIAL_EXIT" || event_type = "FULL_EXIT" ||
       event_type = "BLOCK")
  || !(action = "EXECUTED" || action = "SKIPPED" || action = "BLOCKED")

/-- `DB.insert_position_event`: insert, catching any `sqlite3.IntegrityError`
— an idempotency-key clash or a violated CHECK constraint — as `None`. -/
def insert_position_event (position_id : Nat) (event_type action reason_code : String)
    (detail : Json) (idempotency_key : Option String) (s : Store) :
    Option Nat × Store :=
  if positionEventIntegrityViolation event_type action idempotency_key s then
    (none, s)
  else
    let id := s.position_events.length + 1
    (some id, { s with position_events := s.position_events ++
        [⟨id, position_id, event_type, action, reason_code, detail,
          idempotency_key⟩] })

/-! ## Risk Gate (`app/risk/engine.py`)

The module-global `kill_switch` object is modelled as the explicit boolean
`killSwitchOn` passed to `can_trade`; `KillSwitch.on()`/`off()` set it to
`true`/`false`. -/

/-- `RiskDecision` dataclass. -/
structure RiskDecision where
  allowed : Bool
  reason_code : Option String
deriving Repr, DecidableEq

/-- `can_trade`: kill switch first; then, if an account state is present and
`int(account_state.get("trading_enabled", 1)) != 1`, risk-disabled; otherwise
allowed.  (`trading_enabled` is NOT NULL in the schema, so the `.get` default
is never exercised.) -/
def can_trade (killSwitchOn : Bool) (account_state : Option RiskStateRow) :
    RiskDecision :=
  if killSwitchOn then ⟨false, some "KILL_SWITCH_ON"⟩
  else
    match account_state with
    | some rs => if rs.trading_enabled ≠ 1 then ⟨false, some "RISK_DISABLED"⟩
                 else ⟨true, none⟩
    | none => ⟨true, none⟩

/-! ## Signal Integrity Check (`app/signal/integrity.py`) -/

/-- `EventTicker` dataclass: the projection of an `event_tickers` row that
`validate_signal_binding` inspects. -/
structure EventTicker where
  id : Nat
  news_id : Nat
  map_confidence : ℚ
deriving Repr, DecidableEq

/-- `validate_signal_binding(input_news_id, event_ticker, min_conf=0.92)`:
raises `IntegrityError("NEWS_MISMATCH")` on a news-id mismatch (checked
first), `IntegrityError("LOW_CONFIDENCE")` on confidence below the threshold,
and returns normally otherwise. -/
def validate_signal_binding (input_news_id : Nat) (event_ticker : EventTicker)
    (min_conf : ℚ := 92/100) : Except PipeError Unit :=
  if event_ticker.news_id ≠ input_news_id then .error (.integrity "NEWS_MISMATCH")
  else if event_ticker.map_confidence < min_conf then
    .error (.integrity "LOW_CONFIDENCE")
  else .ok ()

/-! ## Scorer (`app/signal/scorer.py`) -/

/-- `ScoreInput` dataclass. -/
structure ScoreInput where
  impact : ℚ
  source_reliability : ℚ
  novelty : ℚ
  market_reaction : ℚ
  liquidity : ℚ
  risk_penalty : ℚ
deriving Repr, DecidableEq

/-- `clamp(v, lo, hi) = max(lo, min(hi, v))`. -/
def clamp (v lo hi : ℚ) : ℚ := max lo (min hi v)

/-- `DEFAULT_WEIGHTS`, as an association list in the dict's insertion order. -/
def DEFAULT_WEIGHTS : List (String × ℚ) :=
  [("impact", 30/100), ("source_reliability", 20/100), ("novelty", 20/100),
   ("market_reaction", 15/100), ("liquidity", 15/100)]

/-- First-match lookup in a weight dict. -/
def wlookup : List (String × ℚ) → String → Option ℚ
  | [], _ => none
  | (k, v) :: kvs, key => if k = key then some v else wlookup kvs key

/-- The dict union `{**DEFAULT_WEIGHTS, **(weights or {})}`: supplied entries
override the defaults.  With first-match lookup this is `supplied ++ defaults`
(a dict has no duplicate keys, so first match from the supplied side is the
override). -/
def mergeWeights (weights : Option (List (String × ℚ))) : List (String × ℚ) :=
  weights.getD [] ++ DEFAULT_WEIGHTS

/-- Indexing `w[k]` into the merged dict; the defaults make all five keys
present, so the `getD 0` branch is never taken on the scorer's keys. -/
def wget (m : List (String × ℚ)) (k : String) : ℚ := (wlookup m k).getD 0

/-- `compute_scores`: the weighted sum minus risk penalty, and its clamp into
`[0, 100]`. -/
def compute_scores (inp : ScoreInput) (weights : Option (List (String × ℚ))) :
    ℚ × ℚ :=
  let w := mergeWeights weights
  let raw_score :=
    wget w "impact" * inp.impact
    + wget w "source_reliability" * inp.source_reliability
    + wget w "novelty" * inp.novelty
    + wget w "market_reaction" * inp.market_reaction
    + wget w "liquidity" * inp.liquidity
    - inp.risk_penalty
  (raw_score, clamp raw_score 0 100)

/-! ## Ticker mapper (`app/nlp/ticker_mapper.py`) -/

/-- `MappingResult` dataclass. -/
structure MappingResult where
  ticker : String
  company_name : String
  confidence : ℚ
  method : String
deriving Repr, DecidableEq

/-- The `ALIASES` dict, in insertion order: alias ↦ (ticker, name, confidence). -/
def ALIASES : List (String × String × String × ℚ) :=
  [("삼성전자", ("005930", "삼성전자", 98/100)),
   ("SK하이닉스", ("000660", "SK하이닉스", 98/100)),
   ("삼성", ("", "AMBIGUOUS", 20/100))]

/-- Contiguous-sublist test over characters. -/
def charsInfixOf (needle : List Char) : List Char → Bool
  | [] => needle.isEmpty
  | c :: cs => needle.isPrefixOf (c :: cs) || charsInfixOf needle cs

/-- Substring test `k in text` (Python `in` on `str`). -/
def strContains (text k : String) : Bool := charsInfixOf k.toList text.toList

/-- Stable insertion of a key into a longest-first list (ties keep earlier
insertion order), used to model `sorted(keys, key=len, reverse=True)`. -/
def insertByLenDesc (k : String) : List String → List String
  | [] => [k]
  | x :: xs => if x.length < k.length then k :: x :: xs
               else x :: insertByLenDesc k xs

/-- Stable sort of the alias keys, longest first. -/
def sortByLenDesc : List String → List String
  | [] => []
  | x :: xs => insertByLenDesc x (sortByLenDesc xs)

/-- First-match lookup in `ALIASES`. -/
def wlookupAlias : List (String × String × String × ℚ) → String →
    Option (String × String × ℚ)
  | [], _ => none
  | (k, v) :: kvs, key => if k = key then some v else wlookupAlias kvs key

/-- The loop body of `map_ticker` over the sorted keys. -/
def map_ticker_go (text : String) : List String → Option MappingResult
  | [] => none
  | k :: ks =>
    if strContains text k then
      match wlookupAlias ALIASES k with
      | some (ticker, name, conf) =>
        if ticker = "" then none
        else some ⟨ticker, name, conf, "alias_dict"⟩
      | none => none
    else map_ticker_go text ks

/-- `map_ticker`: scan aliases longest-key-first; an empty ticker (the
ambiguous alias) maps to no result. -/
def map_ticker (text : String) : Option MappingResult :=
  map_ticker_go text (sortByLenDesc (ALIASES.map Prod.fst))

/-! ## News feed (`app/ingestion/news_feed.py`) -/

/-- `NewsItem` dataclass; `published_at` is its ISO string form (the only form
the pipeline stores). -/
structure NewsItem where
  source : String
  tier : Nat
  title : String
  body : String
  url : String
  published_at : String
deriving Repr, DecidableEq

/-- `build_hash`: sha256 over `"{source}|{url}|{title}"`.  The digest is
modelled by its preimage string — sha256 is injective on the inputs this
pipeline can produce, and only equality of hashes is ever observed. -/
def build_hash (item : NewsItem) : String :=
  item.source ++ "|" ++ item.url ++ "|" ++ item.title

/-- `sample_news()` (its `published_at = datetime.now(...)` is represented by a
fixed ISO string; no claim observes the timestamp). -/
def sample_news : NewsItem :=
  ⟨"sample", 2, "삼성전자, 신규 반도체 투자 발표", "샘플 뉴스 본문",
   "https://example.com/news/1", "2026-10-12T00:00:00+00:00"⟩

/-! ## Broker capability (`app/execution/broker_base.py`, `paper_broker.py`) -/

/-- `OrderRequest` dataclass. -/
structure OrderRequest where
  signal_id : Nat
  ticker : String
  side : String
  qty : ℚ
  order_type : String
  expected_price : Option ℚ
deriving Repr, DecidableEq

/-- `OrderResult` dataclass. -/
structure OrderResult where
  status : String
  filled_qty : ℚ
  avg_price : ℚ
  reason_code : Option String
deriving Repr, DecidableEq

/-- `PaperBroker.send_order`: always a full fill at the caller's
`expected_price` (default mock price 100.0); the simulated latency has no
observable effect on the store. -/
def paperBroker_send_order (req : OrderRequest) : OrderResult :=
  ⟨"FILLED", req.qty, req.expected_price.getD 100, none⟩

/-! ## The three-phase pipeline (`app/main.py`)

`db.begin()` starts the transaction's working view from the committed store;
`db.commit()` publishes the working view; `db.rollback()` discards it.  The
`try/except: db.rollback(); raise` blocks are the explicit `.error` branches
below, each returning the rolled-back state `⟨committed, committed⟩`.

Process-global inputs are passed explicitly: the kill-switch flag, the broker
(`settings.broker` selects the implementation; the pipeline only sees
`send_order`), and `datetime.now().date().isoformat()` as `trade_date`. -/

/-- `SignalBundle` (`TypedDict` in the source). -/
structure SignalBundle where
  signal_id : Nat
  ticker : String
deriving Repr, DecidableEq

/-- The `components` dict Phase 1 serialises into the signal row. -/
def phase1Components : Json :=
  .obj [("impact", .num 75), ("source_reliability", .num 70),
        ("novelty", .num 90), ("market_reaction", .num 50),
        ("liquidity", .num 50), ("risk_penalty", .num 10),
        ("freshness_weight", .num 1)]

/-- The fixed `ScoreInput` Phase 1 builds from `components`. -/
def phase1ScoreInput : ScoreInput := ⟨75, 70, 90, 50, 50, 10⟩

/-- `ingest_and_create_signal` (Transaction #1): ingest, map, integrity-check,
score, persist the signal.  `.ok none` is a benign skip (`DUP_NEWS_SKIPPED`,
`NO_MAPPING`, `EVENT_TICKER_NOT_FOUND`), `.error` a propagated integrity
failure; both leave the rolled-back state. -/
def ingest_and_create_signal (news : NewsItem) (db : DBState) :
    DBState × Except PipeError (Option SignalBundle) :=
  let raw_hash := build_hash news
  let c := db.committed      -- db.begin()
  let s := c
  match insert_news_if_new
      ⟨news.source, news.tier, news.published_at, news.title, news.body,
       news.url, raw_hash⟩ s with
  | (none, _) => (⟨c, c⟩, .ok none)          -- rollback; DUP_NEWS_SKIPPED
  | (some news_id, s) =>
    match map_ticker (news.title ++ " " ++ news.body) with
    | none => (⟨c, c⟩, .ok none)             -- rollback; NO_MAPPING
    | some mapping =>
      let (event_ticker_id, s) :=
        insert_event_ticker news_id mapping.ticker mapping.company_name
          mapping.confidence mapping.method s
      match get_event_ticker event_ticker_id s with
      | none => (⟨c, c⟩, .ok none)           -- rollback; EVENT_TICKER_NOT_FOUND
      | some row =>
        match validate_signal_binding news_id
            ⟨row.id, row.news_id, row.map_confidence⟩ with
        | .error e => (⟨c, c⟩, .error e)     -- except: rollback; raise
        | .ok _ =>
          let weights := get_score_weights s
          let (raw_score, total_score) := compute_scores phase1ScoreInput weights
          let (signal_id, s) := insert_signal
            ⟨news_id, event_ticker_id, mapping.ticker, raw_score, total_score,
             phase1Components, "LOW", "BUY"⟩ s
          (⟨s, s⟩, .ok (some ⟨signal_id, mapping.ticker⟩))  -- db.commit()

/-- The entry `OrderRequest` Phase 2 sends (`expected_price=83500.0`). -/
def entryRequest (signal_id : Nat) (ticker : String) (qty : ℚ) : OrderRequest :=
  ⟨signal_id, ticker, "BUY", qty, "MARKET", some 83500⟩

/-- `f"entry:{position_id}:{order_id}"`. -/
def entryKey (position_id order_id : Nat) : String :=
  "entry:" ++ toString position_id ++ ":" ++ toString order_id

/-- `f"block:{position_id}:{order_id}"`. -/
def blockKey (position_id order_id : Nat) : String :=
  "block:" ++ toString position_id ++ ":" ++ toString order_id

/-- `f"exit:{position_id}:{exit_order_id}"`. -/
def exitKey (position_id exit_order_id : Nat) : String :=
  "exit:" ++ toString position_id ++ ":" ++ toString exit_order_id

/-- Transaction #2 of `execute_signal`: risk gate, position + BUY order, broker
call, guarded open, ENTRY event, commit.  Returns `.ok none` where the source
returns `False` after a rollback (blocked), `.ok (some position_id)` after the
commit, `.error` where an exception propagates out of the `try` block. -/
def executeTx2 (killSwitchOn : Bool) (broker : OrderRequest → OrderResult)
    (trade_date : String) (signal_id : Nat) (ticker : String) (qty : ℚ)
    (db : DBState) : DBState × Except PipeError (Option Nat) :=
  let c := db.committed      -- db.begin()
  let s := ensure_risk_state_today trade_date c
  match get_risk_state trade_date s with
  | none => (⟨c, c⟩, .ok none)               -- BLOCKED:RISK_STATE_MISSING
  | some rs =>
    let risk := can_trade killSwitchOn (some rs)
    if risk.allowed then
      let (position_id, s) := create_position ticker signal_id qty s
      let (order_id, s) :=
        insert_order position_id signal_id ticker "BUY" qty "MARKET" "SENT" none s
      let result := broker (entryRequest signal_id ticker qty)
      if result.status ≠ "FILLED" then
        -- BLOCK audit event (result unused in the source); it mutates only the
        -- in-transaction view, which the rollback on the next line discards
        let _s := (insert_position_event position_id "BLOCK" "BLOCKED"
          (result.reason_code.getD "ORDER_NOT_FILLED")
          (.obj [("signal_id", .num signal_id), ("order_id", .num order_id)])
          (some (blockKey position_id order_id)) s).2
        (⟨c, c⟩, .ok none)                   -- BLOCKED:<reason>
      else
        let s := update_order_filled order_id result.avg_price s
        match set_position_open position_id result.avg_price
            (result.avg_price * qty) s with
        | .error e => (⟨c, c⟩, .error e)     -- except: rollback; raise
        | .ok s =>
          -- `first_event_id` feeds only the log line and is otherwise unused
          let s := (insert_position_event position_id "ENTRY" "EXECUTED"
            "ENTRY_FILLED"
            (.obj [("signal_id", .num signal_id), ("order_id", .num order_id),
                   ("filled_qty", .num result.filled_qty),
                   ("avg_price", .num result.avg_price)])
            (some (entryKey position_id order_id)) s).2
          (⟨s, s⟩, .ok (some position_id))   -- db.commit()
    else (⟨c, c⟩, .ok none)                  -- BLOCKED:<risk.reason_code>

/-- Transaction #3 of `execute_signal` (close simulation), with fault
injection: `fail = some k` throws an environment exception (I/O, venue,
transport — §7's taxonomy) immediately before the k-th statement of the
`try` block; `fail = none` is the source's own path.  The
`except: rollback; raise` handler is the source's. -/
def executeTx3F (fail : Option Nat) (signal_id : Nat) (ticker : String)
    (qty : ℚ) (position_id : Nat) (db : DBState) :
    DBState × Except PipeError Bool :=
  let c := db.committed      -- db.begin()
  let s := c
  if fail = some 0 then (⟨c, c⟩, .error .injected) else
  let (exit_order_id, s) :=
    insert_order position_id signal_id ticker "SELL" qty "MARKET" "SENT" none s
  if fail = some 1 then (⟨c, c⟩, .error .injected) else
  let s := update_order_filled exit_order_id 83600 s
  if fail = some 2 then (⟨c, c⟩, .error .injected) else
  match set_position_closed position_id "TIME_EXIT" s with
  | .error e => (⟨c, c⟩, .error e)           -- except: rollback; raise
  | .ok s =>
    if fail = some 3 then (⟨c, c⟩, .error .injected) else
    -- the FULL_EXIT insert's return value is unused in the source: a duplicate
    -- idempotency key is a benign no-op, not an error
    let s := (insert_position_event position_id "FULL_EXIT" "EXECUTED"
      "TIME_EXIT"
      (.obj [("signal_id", .num signal_id), ("exit_order_id", .num exit_order_id),
             ("exit_price", .num 83600)])
      (some (exitKey position_id exit_order_id)) s).2
    if fail = some 4 then (⟨c, c⟩, .error .injected) else
    (⟨s, s⟩, .ok true)                       -- db.commit()

/-- `execute_signal` (Transactions #2 and #3): Phase 3 runs only when Phase 2
committed; a Phase 2 block returns `False` without reaching Phase 3. -/
def execute_signal (killSwitchOn : Bool) (broker : OrderRequest → OrderResult)
    (trade_date : String) (signal_id : Nat) (ticker : String) (qty : ℚ)
    (db : DBState) : DBState × Except PipeError Bool :=
  match executeTx2 killSwitchOn broker trade_date signal_id ticker qty db with
  | (db2, .error e) => (db2, .error e)
  | (db2, .ok none) => (db2, .ok false)
  | (db2, .ok (some position_id)) =>
    executeTx3F none signal_id ticker qty position_id db2

/-- The store `DB.init` leaves behind on a fresh database: empty tables plus
the seeded `score_weights` parameter row (its JSON already decoded). -/
def initStore : Store :=
  { news_events := []
    event_tickers := []
    signal_scores := []
    positions := []
    orders := []
    position_events := []
    risk_state := []
    parameter_registry :=
      [⟨"score_weights",
        some (.obj [("impact", .num (30/100)),
                    ("source_reliability", .num (20/100)),
                    ("novelty", .num (20/100)),
                    ("market_reaction", .num (15/100)),
                    ("liquidity", .num (15/100))])⟩] }

/-- A fresh connection to an initialised database. -/
def dbInit : DBState := ⟨initStore, initStore⟩

/-! ## Spec-side scoring formula

A second definition of the score, following the specification's words ("raw
score is the documented weighted sum minus risk penalty, with built-in default
weights used for any weight not supplied; total score clamps it into
[0, 100]"), to be compared with `compute_scores` from the source. -/

/-- The weight the spec assigns to one component: the supplied weight for that
key when present, otherwise the built-in default `d`. -/
def specWeight (weights : Option (List (String × ℚ))) (k : String) (d : ℚ) : ℚ :=
  match weights with
  | none => d
  | some w => (wlookup w k).getD d

/-- Spec-side raw score: the weighted sum (defaults 0.30/0.20/0.20/0.15/0.15)
minus the risk penalty. -/
def specRawScore (inp : ScoreInput) (weights : Option (List (String × ℚ))) : ℚ :=
  specWeight weights "impact" (30/100) * inp.impact
  + specWeight weights "source_reliability" (20/100) * inp.source_reliability
  + specWeight weights "novelty" (20/100) * inp.novelty
  + specWeight weights "market_reaction" (15/100) * inp.market_reaction
  + specWeight weights "liquidity" (15/100) * inp.liquidity
  - inp.risk_penalty

/-- Spec-side total score: the raw score clamped into `[0, 100]`. -/
def specTotalScore (raw : ℚ) : ℚ :=
  if raw < 0 then 0 else if 100 < raw then 100 else raw

/-! ## Helper lemmas -/

theorem wlookup_append (a b : List (String × ℚ)) (k : String) :
    wlookup (a ++ b) k =
      match wlookup a k with
      | some v => some v
      | none => wlookup b k := by
  induction a with
  | nil => rfl
  | cons hd tl ih =>
    obtain ⟨k0, v0⟩ := hd
    by_cases h : k0 = k <;> simp [wlookup, h, ih]

theorem wget_merge (w : Option (List (String × ℚ))) (k : String) (d : ℚ)
    (h : wlookup DEFAULT_WEIGHTS k = some d) :
    wget (mergeWeights w) k = specWeight w k d := by
  cases w with
  | none => simp [mergeWeights, wget, specWeight, h]
  | some l =>
    simp only [mergeWeights, wget, specWeight, Option.getD_some, wlookup_append]
    cases hl : wlookup l k <;> simp [hl, h]

theorem clamp_eq_specTotal (v : ℚ) : clamp v 0 100 = specTotalScore v := by
  simp only [clamp, specTotalScore, max_def, min_def]
  split_ifs <;> linarith

theorem findRisk_append (rs : List RiskStateRow) (row : RiskStateRow) (d : String) :
    findRisk (rs ++ [row]) d =
      match findRisk rs d with
      | some r => some r
      | none => if row.trade_date = d then some row else none := by
  induction rs with
  | nil => rfl
  | cons hd tl ih =>
    by_cases h : hd.trade_date = d <;> simp [findRisk, h, ih]

theorem get_after_ensure (d : String) (s : Store) :
    ∃ r, get_risk_state d (ensure_risk_state_today d s) = some r := by
  unfold get_risk_state ensure_risk_state_today
  cases h : findRisk s.risk_state d with
  | some r => exact ⟨r, by simp [h]⟩
  | none => exact ⟨defaultRiskRow d, by simp [h, findRisk_append, defaultRiskRow]⟩

/-! ## C6 — Risk Gate evaluation order -/

/-- C6: `can_trade` evaluates first-match-wins: an engaged kill switch yields
`allowed=false, KILL_SWITCH_ON` regardless of the risk state; otherwise a
present account state with `trading_enabled ≠ 1` yields
`allowed=false, RISK_DISABLED`; otherwise `allowed=true`. -/
theorem canTrade_first_match_wins :
    (∀ st : Option RiskStateRow,
        can_trade true st = ⟨false, some "KILL_SWITCH_ON"⟩)
    ∧ (∀ rs : RiskStateRow, rs.trading_enabled ≠ 1 →
        can_trade false (some rs) = ⟨false, some "RISK_DISABLED"⟩)
    ∧ (∀ rs : RiskStateRow, rs.trading_enabled = 1 →
        can_trade false (some rs) = ⟨true, none⟩)
    ∧ can_trade false none = ⟨true, none⟩ := by
  refine ⟨fun st => rfl, fun rs h => by simp [can_trade, h],
    fun rs h => by simp [can_trade, h], rfl⟩

/-- C6 witness: the theorem applied at concrete states — kill switch on with
trading disabled still reports `KILL_SWITCH_ON`; switch off with
`trading_enabled = 0` reports `RISK_DISABLED`; both clear allows. -/
theorem canTrade_first_match_wins_witness :
    can_trade true (some ⟨"2026-01-02", 0, 0, 0, 0, none, 0⟩)
        = ⟨false, some "KILL_SWITCH_ON"⟩
    ∧ can_trade false (some ⟨"2026-01-02", 0, 0, 0, 0, none, 0⟩)
        = ⟨false, some "RISK_DISABLED"⟩
    ∧ can_trade false (some ⟨"2026-01-02", 0, 0, 0, 0, none, 1⟩)
        = ⟨true, none⟩ :=
  ⟨canTrade_first_match_wins.1 _,
   canTrade_first_match_wins.2.1 _ (by decide),
   canTrade_first_match_wins.2.2.1 _ (by decide)⟩

/-! ## C8 — the scoring formula -/

/-- C8: `compute_scores` returns exactly the spec's raw score (the weighted sum
with per-key default fallback, minus the risk penalty) and its clamp into
`[0, 100]`, for every input and every optional weight mapping. -/
theorem computeScores_matches_spec (inp : ScoreInput)
    (weights : Option (List (String × ℚ))) :
    compute_scores inp weights =
      (specRawScore inp weights, specTotalScore (specRawScore inp weights)) := by
  have h1 : wlookup DEFAULT_WEIGHTS "impact" = some (30/100) := by rfl
  have h2 : wlookup DEFAULT_WEIGHTS "source_reliability" = some (20/100) := by rfl
  have h3 : wlookup DEFAULT_WEIGHTS "novelty" = some (20/100) := by rfl
  have h4 : wlookup DEFAULT_WEIGHTS "market_reaction" = some (15/100) := by rfl
  have h5 : wlookup DEFAULT_WEIGHTS "liquidity" = some (15/100) := by rfl
  simp only [compute_scores, specRawScore, wget_merge _ _ _ h1, wget_merge _ _ _ h2,
    wget_merge _ _ _ h3, wget_merge _ _ _ h4, wget_merge _ _ _ h5,
    clamp_eq_specTotal]

/-! ## C3 — guarded transitions are the sole guard -/

/-- C3: `set_position_open` fails with `IllegalTransition` exactly when no row
with the given id is currently `PENDING_ENTRY` (in particular when the
position is in any other status), and succeeds whenever such a row exists —
the zero-rows-affected test is the sole guard; `set_position_closed` behaves
the same with expected status `OPEN`.  In the failure case the function
returns no store: the update matched nothing and the table is untouched. -/
theorem guarded_transitions_sole_guard (pid : Nat) (price val : ℚ)
    (rc : String) (s : Store) :
    (set_position_open pid price val s = .error .illegalTransition ↔
      ∀ p ∈ s.positions, ¬(p.position_id = pid ∧ p.status = "PENDING_ENTRY"))
    ∧ (set_position_closed pid rc s = .error .illegalTransition ↔
      ∀ p ∈ s.positions, ¬(p.position_id = pid ∧ p.status = "OPEN"))
    ∧ ((∃ p ∈ s.positions, p.position_id = pid ∧ p.status = "PENDING_ENTRY") →
      ∃ s', set_position_open pid price val s = .ok s')
    ∧ ((∃ p ∈ s.positions, p.position_id = pid ∧ p.status = "OPEN") →
      ∃ s', set_position_closed pid rc s = .ok s') := by
  refine ⟨?_, ?_, ?_, ?_⟩
  · unfold set_position_open
    simp only [List.any_eq_true, decide_eq_true_eq]
    by_cases h : ∃ p ∈ s.positions, p.position_id = pid ∧ p.status = "PENDING_ENTRY"
    · rw [if_pos h]
      constructor
      · intro hh; exact absurd hh (by simp)
      · intro hall
        obtain ⟨p, hp, hcond⟩ := h
        exact absurd hcond (hall p hp)
    · rw [if_neg h]
      exact ⟨fun _ p hp hcond => h ⟨p, hp, hcond⟩, fun _ => rfl⟩
  · unfold set_position_closed
    simp only [List.any_eq_true, decide_eq_true_eq]
    by_cases h : ∃ p ∈ s.positions, p.position_id = pid ∧ p.status = "OPEN"
    · rw [if_pos h]
      constructor
      · intro hh; exact absurd hh (by simp)
      · intro hall
        obtain ⟨p, hp, hcond⟩ := h
        exact absurd hcond (hall p hp)
    · rw [if_neg h]
      exact ⟨fun _ p hp hcond => h ⟨p, hp, hcond⟩, fun _ => rfl⟩
  · intro h
    unfold set_position_open
    simp only [List.any_eq_true, decide_eq_true_eq]
    rw [if_pos h]
    exact ⟨_, rfl⟩
  · intro h
    unfold set_position_closed
    simp only [List.any_eq_true, decide_eq_true_eq]
    rw [if_pos h]
    exact ⟨_, rfl⟩

/-- C3 witness: on a store whose single position is `OPEN`, opening raises
`IllegalTransition` (the row is not `PENDING_ENTRY`) while closing succeeds. -/
theorem guarded_transitions_sole_guard_witness :
    set_position_open 1 (5 : ℚ) (5 : ℚ)
        ⟨[], [], [], [⟨1, "005930", 1, "OPEN", 1, some 5, some 5, 1, none⟩],
         [], [], [], []⟩ = .error .illegalTransition
    ∧ ∃ s', set_position_closed 1 "TIME_EXIT"
        ⟨[], [], [], [⟨1, "005930", 1, "OPEN", 1, some 5, some 5, 1, none⟩],
         [], [], [], []⟩ = .ok s' :=
  ⟨(guarded_transitions_sole_guard 1 5 5 "TIME_EXIT" _).1.mpr (by decide),
   (guarded_transitions_sole_guard 1 5 5 "TIME_EXIT" _).2.2.2
     ⟨_, List.mem_singleton.mpr rfl, rfl, rfl⟩⟩

/-! ## C4 — idempotency keys deduplicate lifecycle events -/

theorem positionEventIntegrityViolation_iff (et ac : String)
    (idk : Option String) (s : Store) :
    positionEventIntegrityViolation et ac idk s = true ↔
      (∃ k, idk = some k ∧ ∃ e ∈ s.position_events, e.idempotency_key = some k)
      ∨ ¬(et = "ENTRY" ∨ et = "ADD" ∨ et = "PARTIAL_EXIT" ∨ et = "FULL_EXIT" ∨
          et = "BLOCK")
      ∨ ¬(ac = "EXECUTED" ∨ ac = "SKIPPED" ∨ ac = "BLOCKED") := by
  cases idk with
  | none =>
    simp [positionEventIntegrityViolation, not_or]
    simp only [and_assoc, or_assoc]
  | some k =>
    simp [positionEventIntegrityViolation, List.any_eq_true, not_or]
    simp only [and_assoc, or_assoc]

theorem insert_pe_fresh (s : Store) (pid : Nat) (et ac rc : String) (d : Json)
    (k : String)
    (h : positionEventIntegrityViolation et ac (some k) s = false) :
    insert_position_event pid et ac rc d (some k) s =
      (some (s.position_events.length + 1),
       { s with position_events := s.position_events ++
           [⟨s.position_events.length + 1, pid, et, ac, rc, d, some k⟩] }) := by
  unfold insert_position_event
  rw [if_neg (by simp [h])]

theorem insert_pe_dup (s : Store) (pid : Nat) (et ac rc : String) (d : Json)
    (k : String) (h : ∃ e ∈ s.position_events, e.idempotency_key = some k) :
    insert_position_event pid et ac rc d (some k) s = (none, s) := by
  unfold insert_position_event
  rw [if_pos ((positionEventIntegrityViolation_iff et ac (some k) s).mpr
    (Or.inl ⟨k, rfl, h⟩))]

theorem set_position_closed_not_error (pid : Nat) (rc : String) (s : Store)
    (h : ∃ p ∈ s.positions, p.position_id = pid ∧ p.status = "OPEN") :
    ∀ e, set_position_closed pid rc s ≠ .error e := by
  intro e
  unfold set_position_closed
  simp only [List.any_eq_true, decide_eq_true_eq]
  rw [if_pos h]
  simp

/-- C4 counterexample: a first insert with a fresh non-null idempotency key on
an empty table — so no key clash is possible — still returns `None` and
creates no row when its `event_type` violates the schema's CHECK constraint,
because `DB.insert_position_event` catches every `sqlite3.IntegrityError`.
This refutes "the first returns a row id and creates exactly one row" as
quantified over every pair of calls. -/
theorem positionEvent_insert_rejects_check_violation :
    (⟨[], [], [], [], [], [], [], []⟩ : Store).position_events = []
    ∧ insert_position_event 1 "FOO" "EXECUTED" "X" .null (some "entry:1:1")
        ⟨[], [], [], [], [], [], [], []⟩
      = (none, ⟨[], [], [], [], [], [], [], []⟩) :=
  ⟨rfl, rfl⟩

/-- C4 (amended): `insert_position_event` returns `None` (and leaves the table
untouched) exactly when the insert violates an integrity constraint — a
duplicate non-null idempotency key, or the `event_type`/`action` CHECK
constraints — not only a key clash; for every pair of calls with schema-valid
`event_type`/`action` (as at every pipeline call site) carrying the same
fresh non-null key, the first returns a row id and appends exactly one row
while the second returns `none` and changes nothing; and the pipeline treats
the rejection as "already applied": the settlement transaction still commits
and returns `True` when its exit key is already present. -/
theorem idempotency_key_dedup :
    (∀ (pid : Nat) (et ac rc : String) (d : Json) (idk : Option String)
        (s : Store),
      ((insert_position_event pid et ac rc d idk s).1 = none ↔
        (∃ k, idk = some k ∧ ∃ e ∈ s.position_events, e.idempotency_key = some k)
        ∨ ¬(et = "ENTRY" ∨ et = "ADD" ∨ et = "PARTIAL_EXIT" ∨ et = "FULL_EXIT" ∨
            et = "BLOCK")
        ∨ ¬(ac = "EXECUTED" ∨ ac = "SKIPPED" ∨ ac = "BLOCKED"))
      ∧ ((insert_position_event pid et ac rc d idk s).1 = none →
          (insert_position_event pid et ac rc d idk s).2 = s))
    ∧ (∀ (s : Store) (pid1 pid2 : Nat) (et1 ac1 rc1 et2 ac2 rc2 : String)
        (d1 d2 : Json) (k : String),
      (et1 = "ENTRY" ∨ et1 = "ADD" ∨ et1 = "PARTIAL_EXIT" ∨ et1 = "FULL_EXIT" ∨
        et1 = "BLOCK") →
      (ac1 = "EXECUTED" ∨ ac1 = "SKIPPED" ∨ ac1 = "BLOCKED") →
      (∀ e ∈ s.position_events, e.idempotency_key ≠ some k) →
      (insert_position_event pid1 et1 ac1 rc1 d1 (some k) s).1
          = some (s.position_events.length + 1)
      ∧ ((insert_position_event pid1 et1 ac1 rc1 d1 (some k) s).2).position_events.length
          = s.position_events.length + 1
      ∧ insert_position_event pid2 et2 ac2 rc2 d2 (some k)
            ((insert_position_event pid1 et1 ac1 rc1 d1 (some k) s).2)
          = (none, (insert_position_event pid1 et1 ac1 rc1 d1 (some k) s).2))
    ∧ (∀ (db : DBState) (sid : Nat) (tkr : String) (qty : ℚ) (pid : Nat),
      (∃ p ∈ db.committed.positions, p.position_id = pid ∧ p.status = "OPEN") →
      (∃ e ∈ db.committed.position_events,
        e.idempotency_key = some (exitKey pid (db.committed.orders.length + 1))) →
      (executeTx3F none sid tkr qty pid db).2 = .ok true) := by
  refine ⟨?_, ?_, ?_⟩
  · intro pid et ac rc d idk s
    unfold insert_position_event
    by_cases hb : positionEventIntegrityViolation et ac idk s = true
    · rw [if_pos hb]
      exact ⟨⟨fun _ => (positionEventIntegrityViolation_iff et ac idk s).mp hb,
              fun _ => rfl⟩, fun _ => rfl⟩
    · rw [if_neg hb]
      exact ⟨⟨fun h => absurd h (by simp),
              fun hr =>
                absurd ((positionEventIntegrityViolation_iff et ac idk s).mpr hr) hb⟩,
             fun h => absurd h (by simp)⟩
  · intro s pid1 pid2 et1 ac1 rc1 et2 ac2 rc2 d1 d2 k hev hac hfresh
    have hviol : positionEventIntegrityViolation et1 ac1 (some k) s = false := by
      rw [Bool.eq_false_iff]
      intro hv
      rcases (positionEventIntegrityViolation_iff et1 ac1 (some k) s).mp hv with
        ⟨k', hk', e, he, hkey⟩ | h | h
      · injection hk' with hk'
        subst hk'
        exact hfresh e he hkey
      · exact h hev
      · exact h hac
    rw [insert_pe_fresh s pid1 et1 ac1 rc1 d1 k hviol]
    refine ⟨rfl, by simp, ?_⟩
    exact insert_pe_dup _ pid2 et2 ac2 rc2 d2 k
      ⟨⟨s.position_events.length + 1, pid1, et1, ac1, rc1, d1, some k⟩,
       by simp, rfl⟩
  · intro db sid tkr qty pid hopen hkey
    unfold executeTx3F
    simp only [insert_order, update_order_filled]
    simp only [reduceCtorEq, if_false]
    split
    · rename_i e heq
      exact absurd heq
        (set_position_closed_not_error pid "TIME_EXIT" _ (by simpa using hopen) e)
    · rfl

/-- C4 witness: the theorem applied on a concrete store — a fresh key insert
returns id 1 and adds a row, the replay returns `none` and adds nothing; and a
settlement replay over an already-recorded `exit:1:1` key still returns
`True`. -/
theorem idempotency_key_dedup_witness :
    (insert_position_event 7 "ENTRY" "EXECUTED" "ENTRY_FILLED" .null
        (some "entry:7:9") ⟨[], [], [], [], [], [], [], []⟩).1 = some 1
    ∧ (executeTx3F none 1 "005930" 1 1
        ⟨⟨[], [], [], [⟨1, "005930", 1, "OPEN", 1, some 5, some 5, 1, none⟩],
          [], [⟨1, 1, "FULL_EXIT", "EXECUTED", "TIME_EXIT", .null, some "exit:1:1"⟩],
          [], []⟩,
         ⟨[], [], [], [⟨1, "005930", 1, "OPEN", 1, some 5, some 5, 1, none⟩],
          [], [⟨1, 1, "FULL_EXIT", "EXECUTED", "TIME_EXIT", .null, some "exit:1:1"⟩],
          [], []⟩⟩).2 = .ok true := by
  constructor
  · exact (idempotency_key_dedup.2.1 ⟨[], [], [], [], [], [], [], []⟩
      7 0 "ENTRY" "EXECUTED" "ENTRY_FILLED" "" "" "" .null .null "entry:7:9"
      (Or.inl rfl) (Or.inl rfl) (by simp)).1
  · exact idempotency_key_dedup.2.2 _ 1 "005930" 1 1
      ⟨_, List.mem_singleton.mpr rfl, rfl, rfl⟩
      ⟨_, List.mem_singleton.mpr rfl, rfl⟩

/-! ## Concrete Phase 1 run on a fresh database -/

/-- The store Phase 1 commits when `sample_news` is ingested into a freshly
initialised database: one news row, one binding at confidence 0.98, one signal
scored `raw = total = 59.5` with the default weights. -/
def postIngestStore : Store :=
  { news_events := [⟨1, "sample", 2, "2026-10-12T00:00:00+00:00",
      "삼성전자, 신규 반도체 투자 발표", "샘플 뉴스 본문", "https://example.com/news/1",
      "sample|https://example.com/news/1|삼성전자, 신규 반도체 투자 발표"⟩]
    event_tickers := [⟨1, 1, "005930", "삼성전자", 98/100, "alias_dict"⟩]
    signal_scores := [⟨1, 1, 1, "005930", 119/2, 119/2, phase1Components,
      "LOW", "BUY"⟩]
    positions := []
    orders := []
    position_events := []
    risk_state := []
    parameter_registry := initStore.parameter_registry }

theorem ingest_dbInit_eq : ingest_and_create_signal sample_news dbInit
    = (⟨postIngestStore, postIngestStore⟩, .ok (some ⟨1, "005930"⟩)) := by
  simp [ingest_and_create_signal, insert_news_if_new, newsIntegrityViolation,
    map_ticker, sortByLenDesc, insertByLenDesc, map_ticker_go, strContains,
    charsInfixOf, wlookupAlias, ALIASES, insert_event_ticker, get_event_ticker,
    findEventTicker, validate_signal_binding, get_score_weights, get_parameter,
    findParam, initStore, dbInit, sample_news, build_hash, pyTruthy, buildWeights,
    pyGetItem, jlookup, pyFloat, weightKeys, compute_scores, mergeWeights, wget,
    wlookup, DEFAULT_WEIGHTS, insert_signal, clamp, phase1Components,
    phase1ScoreInput, postIngestStore]
  norm_num

/-! ## C5 — news deduplication and what `None` covers -/

theorem newsIntegrityViolation_iff (item : NewsInsert) (s : Store) :
    newsIntegrityViolation item s = true ↔
      (∃ n ∈ s.news_events, n.url = item.url) ∨
      (∃ n ∈ s.news_events, n.raw_hash = item.raw_hash) ∨
      ¬(item.tier = 1 ∨ item.tier = 2 ∨ item.tier = 3) := by
  simp [newsIntegrityViolation, List.any_eq_true, not_or]
  rw [or_assoc, and_assoc]

/-- C5 counterexample: on the freshly initialised store — which holds no
`NewsEvent` row at all, so no uniqueness constraint can be violated — an item
with `tier = 5` is still reported as `None`, because
`DB.insert_news_if_new` catches every `sqlite3.IntegrityError`, here the
`tier in (1,2,3)` CHECK violation.  This refutes the claim's "only a violated
uniqueness constraint, not any other failure, is reported as None". -/
theorem newsInsert_none_not_only_uniqueness :
    initStore.news_events = []
    ∧ (insert_news_if_new
        ⟨"sample", 5, "2026-10-12T00:00:00+00:00", "t", "b",
         "https://example.com/other", "hash-other"⟩ initStore).1 = none :=
  ⟨rfl, rfl⟩

/-- C5 (amended): an insert is reported as `None` (and creates no row) exactly
when it violates an integrity constraint — an existing `url`, an existing
`raw_hash`, or the `tier ∈ {1,2,3}` CHECK — not solely on uniqueness; and two
submissions of the same `(source, url, title)` event leave exactly one
`NewsEvent` row, the second ingestion returning the benign `DUP_NEWS_SKIPPED`
skip (`.ok none`) and leaving the committed store untouched. -/
theorem newsInsert_dedup_amended :
    (∀ (item : NewsInsert) (s : Store),
      ((insert_news_if_new item s).1 = none ↔
        (∃ n ∈ s.news_events, n.url = item.url) ∨
        (∃ n ∈ s.news_events, n.raw_hash = item.raw_hash) ∨
        ¬(item.tier = 1 ∨ item.tier = 2 ∨ item.tier = 3))
      ∧ ((insert_news_if_new item s).1 = none → (insert_news_if_new item s).2 = s))
    ∧ (ingest_and_create_signal sample_news
        ((ingest_and_create_signal sample_news dbInit).1)).2 = .ok none
    ∧ (ingest_and_create_signal sample_news
        ((ingest_and_create_signal sample_news dbInit).1)).1.committed
        = ((ingest_and_create_signal sample_news dbInit).1).committed
    ∧ ((ingest_and_create_signal sample_news dbInit).1).committed.news_events.length
        = 1 := by
  refine ⟨?_, ?_, ?_, ?_⟩
  case refine_2 =>
    rw [ingest_dbInit_eq]
    simp [ingest_and_create_signal, insert_news_if_new, newsIntegrityViolation,
      postIngestStore, sample_news, build_hash]
  case refine_3 =>
    rw [ingest_dbInit_eq]
    simp [ingest_and_create_signal, insert_news_if_new, newsIntegrityViolation,
      postIngestStore, sample_news, build_hash]
  case refine_4 =>
    rw [ingest_dbInit_eq]
    simp [postIngestStore]
  intro item s
  unfold insert_news_if_new
  by_cases hb : newsIntegrityViolation item s = true
  · rw [if_pos hb]
    exact ⟨⟨fun _ => (newsIntegrityViolation_iff item s).mp hb, fun _ => rfl⟩,
           fun _ => rfl⟩
  · rw [if_neg hb]
    exact ⟨⟨fun h => absurd h (by simp),
            fun hr => absurd ((newsIntegrityViolation_iff item s).mpr hr) hb⟩,
           fun h => absurd h (by simp)⟩

/-! ## C7 — signal integrity failures and Phase 1 rollback -/

theorem validate_error_shape (nid : Nat) (et : EventTicker) (mc : ℚ)
    (e : PipeError) (h : validate_signal_binding nid et mc = .error e) :
    ∃ code, e = .integrity code := by
  unfold validate_signal_binding at h
  split_ifs at h
  · injection h with h1
    exact ⟨"NEWS_MISMATCH", h1.symm⟩
  · injection h with h1
    exact ⟨"LOW_CONFIDENCE", h1.symm⟩

/-- C7: `validate_signal_binding` fails with `NEWS_MISMATCH` whenever the
binding's `news_id` differs from the input id (checked first), fails with
`LOW_CONFIDENCE` when the ids match but the confidence is below the threshold
(default `0.92`), succeeds otherwise; and in Phase 1 every propagated
exception leaves the rolled-back state — the committed store, hence its
`Signal` table, is exactly as before the transaction — and is an integrity
error. -/
theorem integrity_guards_signal_creation :
    (∀ (nid : Nat) (et : EventTicker) (mc : ℚ), et.news_id ≠ nid →
      validate_signal_binding nid et mc = .error (.integrity "NEWS_MISMATCH"))
    ∧ (∀ (nid : Nat) (et : EventTicker) (mc : ℚ),
      et.news_id = nid → et.map_confidence < mc →
      validate_signal_binding nid et mc = .error (.integrity "LOW_CONFIDENCE"))
    ∧ (∀ (nid : Nat) (et : EventTicker) (mc : ℚ),
      et.news_id = nid → mc ≤ et.map_confidence →
      validate_signal_binding nid et mc = .ok ())
    ∧ (∀ (nid : Nat) (et : EventTicker),
      validate_signal_binding nid et = validate_signal_binding nid et (92/100))
    ∧ (∀ (news : NewsItem) (db db' : DBState) (e : PipeError),
      ingest_and_create_signal news db = (db', .error e) →
      db' = ⟨db.committed, db.committed⟩ ∧ ∃ code, e = .integrity code) := by
  refine ⟨?_, ?_, ?_, fun nid et => rfl, ?_⟩
  · intro nid et mc h
    unfold validate_signal_binding
    rw [if_pos h]
  · intro nid et mc h1 h2
    unfold validate_signal_binding
    rw [if_neg (by simpa using h1), if_pos h2]
  · intro nid et mc h1 h2
    unfold validate_signal_binding
    rw [if_neg (by simpa using h1), if_neg (not_lt.mpr h2)]
  · intro news db db' e h
    simp only [ingest_and_create_signal] at h
    split at h
    · exact absurd (congrArg Prod.snd h) (by simp)
    · split at h
      · exact absurd (congrArg Prod.snd h) (by simp)
      · split at h
        · exact absurd (congrArg Prod.snd h) (by simp)
        · split at h
          · rename_i e0 heq
            have h1 := congrArg Prod.fst h
            have h2 := congrArg Prod.snd h
            simp only at h1 h2
            injection h2 with h3
            obtain ⟨code, hc⟩ := validate_error_shape _ _ _ e0 heq
            exact ⟨h1.symm, ⟨code, h3 ▸ hc⟩⟩
          · exact absurd (congrArg Prod.snd h) (by simp)

/-- An ill-formed store modelling the stale/mis-joined read the integrity
check defends against: a pre-existing `event_tickers` row already carries the
id the next insert will be assigned, so the re-read returns the stale row
(bound to news 999 at confidence 0.5). -/
def staleBindingStore : Store :=
  ⟨[], [⟨2, 999, "005930", "삼성전자", 1/2, "alias_dict"⟩], [], [], [], [], [], []⟩

/-- C7 witness: the theorem applied at concrete inputs — a mismatched binding
raises `NEWS_MISMATCH`, a low-confidence binding raises `LOW_CONFIDENCE`, and
a Phase 1 run over `staleBindingStore` (whose re-read yields the stale row)
ends in the rolled-back state with an integrity error. -/
theorem integrity_guards_signal_creation_witness :
    validate_signal_binding 1 ⟨1, 2, 1⟩ (92/100)
        = .error (.integrity "NEWS_MISMATCH")
    ∧ validate_signal_binding 1 ⟨1, 1, 1/2⟩ (92/100)
        = .error (.integrity "LOW_CONFIDENCE")
    ∧ (⟨staleBindingStore, staleBindingStore⟩ : DBState)
        = ⟨(⟨staleBindingStore, staleBindingStore⟩ : DBState).committed,
           (⟨staleBindingStore, staleBindingStore⟩ : DBState).committed⟩
    ∧ ∃ code, (PipeError.integrity "NEWS_MISMATCH") = .integrity code :=
  ⟨integrity_guards_signal_creation.1 1 ⟨1, 2, 1⟩ (92/100) (by decide),
   integrity_guards_signal_creation.2.1 1 ⟨1, 1, 1/2⟩ (92/100) rfl (by norm_num),
   (integrity_guards_signal_creation.2.2.2.2 sample_news
      ⟨staleBindingStore, staleBindingStore⟩
      ⟨staleBindingStore, staleBindingStore⟩
      (.integrity "NEWS_MISMATCH") rfl).1,
   (integrity_guards_signal_creation.2.2.2.2 sample_news
      ⟨staleBindingStore, staleBindingStore⟩
      ⟨staleBindingStore, staleBindingStore⟩
      (.integrity "NEWS_MISMATCH") rfl).2⟩

/-! ## C10 — `get_score_weights` is all-or-nothing -/

theorem buildWeights_isSome_iff (raw : Json) :
    ∀ ks : List String, (∃ l, buildWeights raw ks = some l) ↔
      ∀ k ∈ ks, ∃ q, (pyGetItem raw k).bind pyFloat = some q := by
  intro ks
  induction ks with
  | nil => simp [buildWeights]
  | cons k ks ih =>
    cases h : (pyGetItem raw k).bind pyFloat with
    | none =>
      simp only [buildWeights, h]
      constructor
      · rintro ⟨l, hl⟩
        exact absurd hl (by simp)
      · intro hall
        obtain ⟨q, hq⟩ := hall k (by simp)
        rw [h] at hq
        exact absurd hq (by simp)
    | some q =>
      cases h2 : buildWeights raw ks with
      | none =>
        simp only [buildWeights, h, h2]
        constructor
        · rintro ⟨l, hl⟩
          exact absurd hl (by simp)
        · intro hall
          have hex : ∃ l, buildWeights raw ks = some l :=
            ih.mpr (fun k' hk' => hall k' (List.mem_cons_of_mem _ hk'))
          rw [h2] at hex
          exact absurd hex (by simp)
      | some rest =>
        simp only [buildWeights, h, h2]
        constructor
        · intro _ k' hk'
          rcases List.mem_cons.mp hk' with rfl | hk'
          · exact ⟨q, h⟩
          · exact (ih.mp ⟨rest, h2⟩) k' hk'
        · intro _
          exact ⟨(k, q) :: rest, rfl⟩

theorem gsw_some_iff (s : Store) :
    (∃ m, get_score_weights s = some m) ↔
      ∃ raw, get_parameter s "score_weights" = some raw ∧ pyTruthy raw = true ∧
        ∀ k ∈ weightKeys, ∃ q, (pyGetItem raw k).bind pyFloat = some q := by
  unfold get_score_weights
  cases hp : get_parameter s "score_weights" with
  | none => simp
  | some raw =>
    dsimp only
    by_cases ht : pyTruthy raw = true
    · rw [if_pos ht]
      rw [buildWeights_isSome_iff raw weightKeys]
      constructor
      · intro hall
        exact ⟨raw, rfl, ht, hall⟩
      · rintro ⟨raw', hr, _, hall⟩
        injection hr with hr
        exact hr ▸ hall
    · rw [if_neg ht]
      constructor
      · rintro ⟨m, hm⟩
        exact absurd hm (by simp)
      · rintro ⟨raw', hr, ht', _⟩
        injection hr with hr
        exact absurd (hr ▸ ht') ht

/-- C10: `get_score_weights` returns a mapping exactly when the
`score_weights` parameter row exists, its value parses to a non-empty JSON
object, and all five weight keys are present with float-convertible values;
in every other case — a missing row, a parse failure, a falsy or non-object
value, or a partial mapping — it returns `None`, and the scorer then falls
back to all built-in defaults at once rather than per-key. -/
theorem getScoreWeights_all_or_nothing (s : Store) :
    ((∃ m, get_score_weights s = some m) ↔
      ∃ kvs, get_parameter s "score_weights" = some (Json.obj kvs) ∧ kvs ≠ [] ∧
        ∀ k ∈ weightKeys, ∃ v q, jlookup kvs k = some v ∧ pyFloat v = some q)
    ∧ ∀ inp, compute_scores inp none = compute_scores inp (some DEFAULT_WEIGHTS) := by
  constructor
  · rw [gsw_some_iff s]
    constructor
    · rintro ⟨raw, hr, ht, hall⟩
      obtain ⟨q0, hq0⟩ := hall "impact" (by simp [weightKeys])
      obtain ⟨v0, hv0, -⟩ := Option.bind_eq_some.mp hq0
      cases raw with
      | obj kvs =>
        refine ⟨kvs, hr, ?_, ?_⟩
        · simp only [pyTruthy, Bool.not_eq_true'] at ht
          simpa [List.isEmpty_iff] using ht
        · intro k hk
          obtain ⟨q, hq⟩ := hall k hk
          obtain ⟨v, hv, hf⟩ := Option.bind_eq_some.mp hq
          exact ⟨v, q, hv, hf⟩
      | null => exact absurd hv0 (by simp [pyGetItem])
      | bool b => exact absurd hv0 (by simp [pyGetItem])
      | num q => exact absurd hv0 (by simp [pyGetItem])
      | str st => exact absurd hv0 (by simp [pyGetItem])
      | arr xs => exact absurd hv0 (by simp [pyGetItem])
    · rintro ⟨kvs, hr, hne, hall⟩
      refine ⟨.obj kvs, hr, ?_, ?_⟩
      · simpa [pyTruthy, List.isEmpty_iff] using hne
      · intro k hk
        obtain ⟨v, q, hv, hf⟩ := hall k hk
        exact ⟨q, Option.bind_eq_some.mpr ⟨v, by simpa [pyGetItem] using hv, hf⟩⟩
  · intro inp
    have h1 : wlookup DEFAULT_WEIGHTS "impact" = some (30/100) := by rfl
    have h2 : wlookup DEFAULT_WEIGHTS "source_reliability" = some (20/100) := by rfl
    have h3 : wlookup DEFAULT_WEIGHTS "novelty" = some (20/100) := by rfl
    have h4 : wlookup DEFAULT_WEIGHTS "market_reaction" = some (15/100) := by rfl
    have h5 : wlookup DEFAULT_WEIGHTS "liquidity" = some (15/100) := by rfl
    simp only [compute_scores, wget_merge _ _ _ h1, wget_merge _ _ _ h2,
      wget_merge _ _ _ h3, wget_merge _ _ _ h4, wget_merge _ _ _ h5,
      specWeight, h1, h2, h3, h4, h5, Option.getD_some]

/-! ## C1 — blocked entries leave no trace -/

theorem executeTx2_blocked (killSwitchOn : Bool)
    (broker : OrderRequest → OrderResult) (trade_date : String)
    (signal_id : Nat) (ticker : String) (qty : ℚ) (db : DBState)
    (hblock :
      (can_trade killSwitchOn
        (get_risk_state trade_date
          (ensure_risk_state_today trade_date db.committed))).allowed = false
      ∨ (broker (entryRequest signal_id ticker qty)).status ≠ "FILLED") :
    executeTx2 killSwitchOn broker trade_date signal_id ticker qty db
      = (⟨db.committed, db.committed⟩, .ok none) := by
  obtain ⟨r, hr⟩ := get_after_ensure trade_date db.committed
  unfold executeTx2
  try dsimp only
  rw [hr]
  try dsimp only
  by_cases hall : (can_trade killSwitchOn (some r)).allowed = true
  · rw [if_pos hall]
    rcases hblock with hleft | hright
    · rw [hr] at hleft
      rw [hleft] at hall
      exact absurd hall (by simp)
    · simp only [create_position, insert_order]
      try dsimp only
      rw [if_pos hright]
  · rw [if_neg hall]

/-- C1: whenever Phase 2's entry is blocked — the Risk Gate disallows trading
for today, or the broker answers with any status other than `FILLED` —
`execute_signal` returns `False` and the final state is exactly the
rolled-back one: the committed store is unchanged and the connection's view
equals it, so no Position row, no Order row and no PositionEvent row created
during the transaction persists; only the log/notify line is observable. -/
theorem blocked_entry_leaves_no_trace (killSwitchOn : Bool)
    (broker : OrderRequest → OrderResult) (trade_date : String)
    (signal_id : Nat) (ticker : String) (qty : ℚ) (db : DBState)
    (hblock :
      (can_trade killSwitchOn
        (get_risk_state trade_date
          (ensure_risk_state_today trade_date db.committed))).allowed = false
      ∨ (broker (entryRequest signal_id ticker qty)).status ≠ "FILLED") :
    execute_signal killSwitchOn broker trade_date signal_id ticker qty db
      = (⟨db.committed, db.committed⟩, .ok false) := by
  unfold execute_signal
  rw [executeTx2_blocked killSwitchOn broker trade_date signal_id ticker qty db
    hblock]

/-- C1 witness: the theorem applied on a fresh database with a broker that
rejects the entry order — the run returns `False` and the store is exactly the
initial one (0 Position, 0 Order, 0 PositionEvent rows). -/
theorem blocked_entry_leaves_no_trace_witness :
    execute_signal false (fun _ => ⟨"REJECTED", 0, 0, some "VENUE_REJECT"⟩)
      "2026-01-02" 1 "005930" 1 dbInit = (⟨initStore, initStore⟩, .ok false) :=
  blocked_entry_leaves_no_trace false _ "2026-01-02" 1 "005930" 1 dbInit
    (Or.inr (by decide))

/-! ## C9 — a Phase 3 failure rolls back Phase 3 only -/

/-- C9: if any exception is raised inside Phase 3 (settlement) — at any of its
statements, or by its own guarded transition — the handler rolls back Phase 3
alone: the resulting state is exactly the last committed one, so every row
Phase 2 committed (the FILLED BUY order, the ENTRY PositionEvent, the `OPEN`
position) is still present, unchanged. -/
theorem phase3_failure_rolls_back_phase3_only (fail : Option Nat)
    (signal_id : Nat) (ticker : String) (qty : ℚ) (position_id : Nat)
    (db db' : DBState) (e : PipeError)
    (h : executeTx3F fail signal_id ticker qty position_id db = (db', .error e)) :
    db'.committed = db.committed ∧ db'.current = db.committed
    ∧ (∀ p ∈ db.committed.positions, p ∈ db'.committed.positions)
    ∧ (∀ o ∈ db.committed.orders, o ∈ db'.committed.orders)
    ∧ (∀ ev ∈ db.committed.position_events, ev ∈ db'.committed.position_events) := by
  have key : db' = ⟨db.committed, db.committed⟩ := by
    unfold executeTx3F at h
    simp only [insert_order] at h
    split at h
    · exact (congrArg Prod.fst h).symm
    · split at h
      · exact (congrArg Prod.fst h).symm
      · split at h
        · exact (congrArg Prod.fst h).symm
        · split at h
          · exact (congrArg Prod.fst h).symm
          · split at h
            · exact (congrArg Prod.fst h).symm
            · split at h
              · exact (congrArg Prod.fst h).symm
              · exact absurd (congrArg Prod.snd h) (by simp)
  refine ⟨by rw [key], by rw [key], ?_, ?_, ?_⟩
  · intro p hp; rw [key]; exact hp
  · intro o ho; rw [key]; exact ho
  · intro ev hev; rw [key]; exact hev

/-- A committed Phase 2 state: the `OPEN` position, its FILLED BUY order and
the ENTRY audit event. -/
def afterPhase2Store : Store :=
  { news_events := postIngestStore.news_events
    event_tickers := postIngestStore.event_tickers
    signal_scores := postIngestStore.signal_scores
    positions := [⟨1, "005930", 1, "OPEN", 1, some 83500, some 83500, 1, none⟩]
    orders := [⟨1, 1, 1, "005930", "BUY", 1, "MARKET", some 83500, "FILLED"⟩]
    position_events := [⟨1, 1, "ENTRY", "EXECUTED", "ENTRY_FILLED", .null,
      some "entry:1:1"⟩]
    risk_state := [defaultRiskRow "2026-01-02"]
    parameter_registry := initStore.parameter_registry }

/-- C9 witness: the theorem applied to a run where the environment throws
right at the start of Phase 3 over a committed Phase 2 state — the committed
store survives intact, its rows included. -/
theorem phase3_failure_rolls_back_phase3_only_witness :
    (⟨afterPhase2Store, afterPhase2Store⟩ : DBState).committed = afterPhase2Store
    ∧ ∀ p ∈ afterPhase2Store.positions, p ∈ afterPhase2Store.positions := by
  have hc := phase3_failure_rolls_back_phase3_only (some 0) 1 "005930" 1 1
    ⟨afterPhase2Store, afterPhase2Store⟩ ⟨afterPhase2Store, afterPhase2Store⟩
    .injected rfl
  exact ⟨hc.1, fun p hp => hc.2.2.1 p hp⟩

/-! ## C2 — scenario A end to end -/

/-- C2: from a freshly initialised store, ingesting the mappable,
high-confidence sample event makes Phase 1 return signal id 1 for ticker
005930; with risk enabled (the lazily created risk state) and a broker that
fills the entry order, Phase 2 commits the position `OPEN` with
`avg_entry_price` the broker's average price and `opened_value = price × qty`,
and Phase 3 then closes it with `TIME_EXIT`; afterwards exactly two Order rows
exist (the FILLED BUY and the FILLED SELL) and at least two PositionEvent
rows. -/
theorem scenarioA_end_to_end (qty fq ap : ℚ) (rc : Option String)
    (trade_date : String) (broker : OrderRequest → OrderResult)
    (hfill : broker (entryRequest 1 "005930" qty) = ⟨"FILLED", fq, ap, rc⟩) :
    (ingest_and_create_signal sample_news dbInit).2 = .ok (some ⟨1, "005930"⟩)
    ∧ (executeTx2 false broker trade_date 1 "005930" qty
        (ingest_and_create_signal sample_news dbInit).1).2 = .ok (some 1)
    ∧ (executeTx2 false broker trade_date 1 "005930" qty
        (ingest_and_create_signal sample_news dbInit).1).1.committed.positions
      = [⟨1, "005930", 1, "OPEN", qty, some ap, some (ap * qty), 1, none⟩]
    ∧ (execute_signal false broker trade_date 1 "005930" qty
        (ingest_and_create_signal sample_news dbInit).1).2 = .ok true
    ∧ (execute_signal false broker trade_date 1 "005930" qty
        (ingest_and_create_signal sample_news dbInit).1).1.committed.positions
      = [⟨1, "005930", 1, "CLOSED", qty, some ap, some (ap * qty), 1,
          some "TIME_EXIT"⟩]
    ∧ (execute_signal false broker trade_date 1 "005930" qty
        (ingest_and_create_signal sample_news dbInit).1).1.committed.orders
      = [⟨1, 1, 1, "005930", "BUY", qty, "MARKET", some ap, "FILLED"⟩,
         ⟨2, 1, 1, "005930", "SELL", qty, "MARKET", some 83600, "FILLED"⟩]
    ∧ 2 ≤ (execute_signal false broker trade_date 1 "005930" qty
        (ingest_and_create_signal sample_news dbInit).1).1.committed.position_events.length := by
  rw [ingest_dbInit_eq]
  have hne : entryKey 1 1 ≠ exitKey 1 2 := by decide
  refine ⟨rfl, ?_, ?_, ?_, ?_, ?_, ?_⟩ <;>
  simp [execute_signal, executeTx2, executeTx3F, ensure_risk_state_today,
    get_risk_state, findRisk, defaultRiskRow, can_trade, create_position,
    insert_order, update_order_filled, set_position_open, set_position_closed,
    insert_position_event, positionEventIntegrityViolation, postIngestStore,
    hfill, hne]

/-- C2 witness: the theorem applied with the PaperBroker (which always fills at
the expected price 83500) on quantity 1: the run returns `True` and ends with
the single CLOSED position. -/
theorem scenarioA_end_to_end_witness :
    (execute_signal false paperBroker_send_order "2026-01-02" 1 "005930" 1
        (ingest_and_create_signal sample_news dbInit).1).2 = .ok true
    ∧ (execute_signal false paperBroker_send_order "2026-01-02" 1 "005930" 1
        (ingest_and_create_signal sample_news dbInit).1).1.committed.positions
      = [⟨1, "005930", 1, "CLOSED", 1, some 83500, some (83500 * 1), 1,
          some "TIME_EXIT"⟩] := by
  have hc := scenarioA_end_to_end 1 1 83500 none "2026-01-02"
    paperBroker_send_order rfl
  exact ⟨hc.2.2.2.1, hc.2.2.2.2.1⟩

/-! ## Remaining witnesses -/

/-- C5 witness: the amended theorem applied concretely — re-submitting the
sample item over the store that already holds it is reported as `None` and
leaves the table untouched (here via the conditional conjunct, whose
hypothesis is discharged by computation). -/
theorem newsInsert_dedup_amended_witness :
    (insert_news_if_new
      ⟨"sample", 2, "2026-10-12T00:00:00+00:00", "삼성전자, 신규 반도체 투자 발표",
       "샘플 뉴스 본문", "https://example.com/news/1",
       "sample|https://example.com/news/1|삼성전자, 신규 반도체 투자 발표"⟩
      postIngestStore).2 = postIngestStore :=
  (newsInsert_dedup_amended.1 _ postIngestStore).2 rfl

/-- C8 witness: the theorem applied at the pipeline's fixed score input with
absent weights. -/
theorem computeScores_matches_spec_witness :
    compute_scores phase1ScoreInput none =
      (specRawScore phase1ScoreInput none,
       specTotalScore (specRawScore phase1ScoreInput none)) :=
  computeScores_matches_spec phase1ScoreInput none

/-- C10 witness: the theorem applied at the freshly initialised store, whose
seeded parameter row satisfies the right-hand side, so a mapping is
returned. -/
theorem getScoreWeights_all_or_nothing_witness :
    ∃ m, get_score_weights initStore = some m := by
  refine (getScoreWeights_all_or_nothing initStore).1.mpr
    ⟨[("impact", .num (30/100)), ("source_reliability", .num (20/100)),
      ("novelty", .num (20/100)), ("market_reaction", .num (15/100)),
      ("liquidity", .num (15/100))], rfl, by simp, ?_⟩
  intro k hk
  simp only [weightKeys, List.mem_cons, List.not_mem_nil, or_false] at hk
  rcases hk with rfl | rfl | rfl | rfl | rfl
  · exact ⟨.num (30/100), 30/100, rfl, rfl⟩
  · exact ⟨.num (20/100), 20/100, rfl, rfl⟩
  · exact ⟨.num (20/100), 20/100, rfl, rfl⟩
  · exact ⟨.num (15/100), 15/100, rfl, rfl⟩
  · exact ⟨.num (15/100), 15/100, rfl, rfl⟩
